import Mathlib

/-!
Verification of the clim-recal calendar-conversion and grid-reprojection
engine (`clim_recal/utils/xarray.py` and `clim_recal/resample.py`).

Python strings and filesystem paths are embedded as `List Char`; datasets
are embedded structurally with exactly the fields the verified properties
depend on.  External library boundaries (the `xarray` calendar converter,
the GDAL warp primitive, the process clock) are parameters of the embedded
functions, following the interface boundaries of the module design.
-/

namespace ClimRecal

/-- Python strings / paths, embedded as lists of characters. -/
abbrev St := List Char

/-- Split a char list on a separator character, Python `str.split(sep)`
semantics: `"".split(sep) == [""]`, separators delimit possibly empty
fields. -/
def splitOnChar (sep : Char) : St → List St
  | [] => [[]]
  | c :: rest =>
      match splitOnChar sep rest with
      | [] => if c = sep then [[], []] else [[c]]
      | h :: t => if c = sep then [] :: h :: t else (c :: h) :: t

/-- Index of the last occurrence of `c` in `s`, Python `str.rfind`. -/
def lastIdxOf (c : Char) (s : St) : Option Nat :=
  (List.range s.length).foldl (fun acc i => if s.getD i ' ' = c then some i else acc) none

/-- `pathlib.PurePath.stem` on a single path component: the name without
its last suffix, where a suffix needs a dot that is neither the first nor
the last character. -/
def pyStem (s : St) : St :=
  match lastIdxOf '.' s with
  | some i => if 0 < i ∧ i < s.length - 1 then s.take i else s
  | none => s

/-- `pathlib.PurePath.name` of a normalized slash-separated path: the last
slash-separated component. -/
def pyName (p : St) : St := (splitOnChar '/' p).getLastD []

/-- Join path components with `/`, inverse of `splitOnChar '/'` on
normalized paths. -/
def joinSlash : List St → St
  | [] => []
  | [x] => x
  | x :: y :: t => x ++ '/' :: joinSlash (y :: t)

/-- `pathlib.Path(p).parent` for a normalized relative path: all but the
last component, `"."` when there is a single component. -/
def parentPath (p : St) : St :=
  let parts := splitOnChar '/' p
  if parts.length ≤ 1 then ['.'] else joinSlash parts.dropLast

/-- CPython `needle in hay` substring test, helper: `hay` begins with
`needle`. -/
def startsWithChars : St → St → Bool
  | [], _ => true
  | _ :: _, [] => false
  | a :: as, b :: bs => a = b && startsWithChars as bs

/-- CPython `str.__contains__`: `needle` occurs as a contiguous substring
of `hay` (the empty needle always occurs). -/
def hasSubstr : St → St → Bool
  | n, [] => startsWithChars n []
  | n, b :: bs => startsWithChars n (b :: bs) || hasSubstr n bs

/-- Numeric value of a decimal digit character. -/
def digitVal (c : Char) : Nat := c.toNat - 48

/-- Gregorian leap-year rule, as in Python `calendar.isleap`. -/
def isLeapYear (y : Nat) : Bool := (y % 4 = 0 && y % 100 ≠ 0) || y % 400 = 0

/-- Number of days of month `m` in a year whose leap status is `leap`. -/
def daysInMonthOf (leap : Bool) (m : Nat) : Nat :=
  if m = 2 then (if leap then 29 else 28)
  else if m = 4 || m = 6 || m = 9 || m = 11 then 30
  else 31

/-- A calendar date as parsed by `datetime.strptime` (time fields are all
zero for the `%Y%m%d` format and are omitted). -/
structure Ymd where
  y : Nat
  m : Nat
  d : Nat
deriving DecidableEq

/-- Whether a `(month, day)` pair is a date that exists in the Gregorian
calendar for a year of leap status `leap`. -/
def validMonthDay (leap : Bool) (md : Nat × Nat) : Bool :=
  1 ≤ md.1 && md.1 ≤ 12 && 1 ≤ md.2 && md.2 ≤ daysInMonthOf leap md.1

/-! ## `MONTH_DAY_XARRAY_*_DROP` constants (`utils/xarray.py` lines 57-74)

The Python values are `set`s of `(month, day)` tuples; they are embedded
as lists of distinct pairs in the literal's order. -/

/-- `MONTH_DAY_XARRAY_LEAP_YEAR_DROP` from `utils/xarray.py`. -/
def MONTH_DAY_XARRAY_LEAP_YEAR_DROP : List (Nat × Nat) :=
  [(1, 31), (4, 1), (6, 1), (8, 1), (9, 31), (12, 1)]

/-- `MONTH_DAY_XARRAY_NO_LEAP_YEAR_DROP` from `utils/xarray.py`. -/
def MONTH_DAY_XARRAY_NO_LEAP_YEAR_DROP : List (Nat × Nat) :=
  [(2, 6), (4, 20), (7, 2), (9, 13), (11, 25)]

/-- Claim C5 exactly as stated: the leap set has 6 elements, the non-leap
set 5, the two sets are distinct, and every tuple in each set denotes a
Gregorian date that exists for a year of that leap status. -/
def monthDayDropClaim : Prop :=
  MONTH_DAY_XARRAY_LEAP_YEAR_DROP.toFinset.card = 6 ∧
  MONTH_DAY_XARRAY_NO_LEAP_YEAR_DROP.toFinset.card = 5 ∧
  MONTH_DAY_XARRAY_LEAP_YEAR_DROP.toFinset ≠ MONTH_DAY_XARRAY_NO_LEAP_YEAR_DROP.toFinset ∧
  (∀ md ∈ MONTH_DAY_XARRAY_LEAP_YEAR_DROP, validMonthDay true md = true) ∧
  (∀ md ∈ MONTH_DAY_XARRAY_NO_LEAP_YEAR_DROP, validMonthDay false md = true)

/-! ## Calendar conversion CRS bookkeeping
(`convert_xr_calendar`, `interpolate_xr_ts_nans`, `utils/xarray.py`
lines 726-938)

Only the fields the CRS-propagation logic touches are embedded: the
`rio.crs` tag and an abstract data payload.  The external
`xarray.convert_calendar` call is the labeled-array engine boundary and
does not guarantee CRS propagation, so its result
(`calendar_converted_ts`) is a parameter; `interpolate_na` preserves
coordinates, hence the CRS, and its effect on the data is the parameter
`interpNa`. -/

/-- A labeled-array dataset: its CRS tag (`none` when no CRS is attached)
and an abstract data payload. -/
structure XrDataset (α : Type) where
  crs : Option St
  data : α

/-- `rio.write_crs` on the embedded dataset: replaces the CRS tag. -/
def rio_write_crs (c : Option St) (ds : XrDataset α) : XrDataset α :=
  XrDataset.mk c ds.data

/-- `interpolate_xr_ts_nans` (`utils/xarray.py` lines 867-938), restricted
to its CRS bookkeeping: `interpolate_na` keeps the CRS of `xr_ts`, and the
final guard checks `original_xr_ts.rio.crs` but writes `xr_ts.rio.crs`
(line 936), not the original's CRS. -/
def interpolate_xr_ts_nans (xr_ts original_xr_ts : XrDataset α)
    (keep_crs : Bool) (interpNa : α → α) : XrDataset α :=
  let interpolated_ts : XrDataset α := XrDataset.mk xr_ts.crs (interpNa xr_ts.data)
  if keep_crs && original_xr_ts.crs.isSome then
    rio_write_crs xr_ts.crs interpolated_ts
  else
    interpolated_ts

/-- `convert_xr_calendar` (`utils/xarray.py` lines 726-864), restricted to
its CRS bookkeeping after the external `convert_calendar` call (whose
result is the parameter `calendar_converted_ts`): the non-interpolating
branch re-writes the input's CRS when `keep_crs` holds and the input has
one; the interpolating branch delegates to `interpolate_xr_ts_nans`. -/
def convert_xr_calendar (xr_time_series calendar_converted_ts : XrDataset α)
    (interpolate_na keep_crs : Bool) (interpNa : α → α) : XrDataset α :=
  if !interpolate_na then
    if keep_crs && xr_time_series.crs.isSome then
      rio_write_crs xr_time_series.crs calendar_converted_ts
    else
      calendar_converted_ts
  else
    interpolate_xr_ts_nans calendar_converted_ts xr_time_series keep_crs interpNa

/-! ## `file_name_to_start_end_dates` (`utils/xarray.py` lines 1075-1129)

The date format is `CLI_DATE_FORMAT_STR` from `utils/core.py`, which is
`%Y%m%d` (spec §6: two `YYYYMMDD` tokens; the function's doctests parse
`20761201-20771130` to `datetime(2076, 12, 1)` / `datetime(2077, 11, 30)`).
`datetime.strptime` is embedded following CPython's `_strptime` regex
semantics for `%Y%m%d`: `%Y` matches exactly four digits, `%m` matches
`1[0-2]|0[1-9]|[1-9]`, `%d` matches `3[01]|[12]\d|0[1-9]|[1-9]| [1-9]`, the whole
string must be consumed (first full match in backtracking order), and the
resulting `datetime` construction rejects out-of-range days. -/

/-- Candidate `(month, remainder)` parses of `%m` in CPython's alternation
order. -/
def monthAlts (cs : St) : List (Nat × St) :=
  (match cs with
   | '1' :: c :: rest => if '0' ≤ c && c ≤ '2' then [(10 + digitVal c, rest)] else []
   | _ => [])
  ++ (match cs with
   | '0' :: c :: rest => if '1' ≤ c && c ≤ '9' then [(digitVal c, rest)] else []
   | _ => [])
  ++ (match cs with
   | c :: rest => if '1' ≤ c && c ≤ '9' then [(digitVal c, rest)] else []
   | _ => [])

/-- Candidate `(day, remainder)` parses of `%d` in CPython's alternation
order. -/
def dayAlts (cs : St) : List (Nat × St) :=
  (match cs with
   | '3' :: c :: rest => if c = '0' || c = '1' then [(30 + digitVal c, rest)] else []
   | _ => [])
  ++ (match cs with
   | c :: d :: rest =>
       if ('1' ≤ c && c ≤ '2') && d.isDigit then [(10 * digitVal c + digitVal d, rest)] else []
   | _ => [])
  ++ (match cs with
   | '0' :: c :: rest => if '1' ≤ c && c ≤ '9' then [(digitVal c, rest)] else []
   | _ => [])
  ++ (match cs with
   | c :: rest => if '1' ≤ c && c ≤ '9' then [(digitVal c, rest)] else []
   | _ => [])
  ++ (match cs with
   | ' ' :: c :: rest => if '1' ≤ c && c ≤ '9' then [(digitVal c, rest)] else []
   | _ => [])

/-- All full matches of the `%Y%m%d` regex against `cs`, in the regex
engine's backtracking order (head = the match CPython reports). -/
def ymdMatches (cs : St) : List Ymd :=
  match cs with
  | a :: b :: c :: d :: rest =>
      if a.isDigit && b.isDigit && c.isDigit && d.isDigit then
        let y := 1000 * digitVal a + 100 * digitVal b + 10 * digitVal c + digitVal d
        (monthAlts rest).flatMap (fun mr =>
          (dayAlts mr.2).filterMap (fun dr =>
            if dr.2 = [] then some (Ymd.mk y mr.1 dr.1) else none))
      else []
  | _ => []

/-- `datetime.strptime(s, "%Y%m%d")` as a total function: `none` exactly
when CPython raises `ValueError` (no full regex match, year below
`MINYEAR`, or a day that does not exist in the parsed month). -/
def strptimeYmd (s : St) : Option Ymd :=
  match ymdMatches s with
  | [] => none
  | r :: _ =>
      if 1 ≤ r.y && r.d ≤ daysInMonthOf (isLeapYear r.y) r.m then some r else none

/-- The `'-'`-separated tokens of the stem of the final `'_'`-delimited
segment of the file name of `path` — the quantity
`file_name_to_start_end_dates` validates. -/
def dateTokens (path : St) : List St :=
  splitOnChar '-' (pyStem ((splitOnChar '_' (pyName path)).getLastD []))

/-- `file_name_to_start_end_dates` (`utils/xarray.py` lines 1075-1129):
split the file name on `'_'`, take the stem of the last segment, split it
on `'-'`, require exactly two tokens (else the `ValueError` from the
failed `assert`), then `strptime` each token (a failed parse is the
`ValueError` raised by `strptime`). -/
def file_name_to_start_end_dates (path : St) : Except St (Ymd × Ymd) :=
  let date_range_path : St := (splitOnChar '_' (pyName path)).getLastD []
  let date_strs : List St := splitOnChar '-' (pyStem date_range_path)
  if date_strs.length = 2 then
    match strptimeYmd (date_strs.getD 0 []) with
    | none => Except.error "ValueError: start date does not match format".toList
    | some start_date =>
        match strptimeYmd (date_strs.getD 1 []) with
        | none => Except.error "ValueError: end date does not match format".toList
        | some end_date => Except.ok (start_date, end_date)
  else
    Except.error "ValueError: Maximum of 2 date strs in YYYMMDD form allowed".toList

/-! ## Manager and resampler index windows
(`resample.py`: `ResamplerBase.__len__`/`max_count` lines 108-119,
`ResamplerManagerBase.__len__`/`max_count` lines 601-612)

Python's `l[start:stop]` for non-negative `start` and `stop` (the spec's
index window `[start_index, stop_index)`; `stop_index=None` means "to the
end"). -/

/-- `l[start:stop]` for non-negative bounds, `stop = none` meaning open. -/
def pySlice (l : List α) (start : Nat) (stop : Option Nat) : List α :=
  match stop with
  | some s => (l.take s).drop start
  | none => l.drop start

/-- The index-window state of `ResamplerManagerBase` after
`set_input_paths` has propagated `input_paths` to a sequence. -/
structure ResamplerManagerBase where
  input_paths : List St
  start_index : Nat
  stop_index : Option Nat

/-- `ResamplerManagerBase.__len__` (`resample.py` lines 601-607):
`len(self.input_paths[self.start_index : self.stop_index])`. -/
def managerLen (m : ResamplerManagerBase) : Nat :=
  (pySlice m.input_paths m.start_index m.stop_index).length

/-- `ResamplerManagerBase.max_count` (`resample.py` lines 609-612):
`len(self.input_paths)`. -/
def managerMaxCount (m : ResamplerManagerBase) : Nat :=
  m.input_paths.length

/-- The index-window state of a `ResamplerBase` (per-variable converter)
after `set_input_files` has populated `input_files`. -/
structure ResamplerBase where
  input_files : List St
  start_index : Nat
  stop_index : Option Nat

/-- `ResamplerBase.__len__` (`resample.py` lines 108-114):
`len(self.input_files[self.start_index : self.stop_index])`. -/
def resamplerLen (r : ResamplerBase) : Nat :=
  (pySlice r.input_files r.start_index r.stop_index).length

/-- `ResamplerBase.max_count` (`resample.py` lines 116-119). -/
def resamplerMaxCount (r : ResamplerBase) : Nat :=
  r.input_files.length

/-- Total number of source files across the manager's enumerated input
paths restricted to the index window, for a directory listing
`listing` — what claim C2 says `len(manager)` equals. -/
def windowSourceFileTotal (m : ResamplerManagerBase) (listing : St → List St) : Nat :=
  ((pySlice m.input_paths m.start_index m.stop_index).map (fun p => (listing p).length)).sum

/-- Total number of source files across all enumerated input paths
ignoring the window — what claim C2 says `max_count` equals. -/
def allSourceFileTotal (m : ResamplerManagerBase) (listing : St → List St) : Nat :=
  (m.input_paths.map (fun p => (listing p).length)).sum

/-- Concrete manager for the C2 counterexample: two propagated input
paths, no window restriction. -/
def c2Manager : ResamplerManagerBase :=
  ResamplerManagerBase.mk ["hads/tasmax/day".toList, "hads/rainfall/day".toList] 0 none

/-- Concrete directory listing for the C2 counterexample: each input path
holds three source files. -/
def c2Listing : St → List St :=
  fun _ => ["f1.nc".toList, "f2.nc".toList, "f3.nc".toList]

/-! ## `interpolate_coords` (`utils/xarray.py` lines 425-514)

A dataset is embedded as its coordinate table (name to axis values) and
CRS tag; the result records the grid actually interpolated onto, whether
the reference dataset was loaded, and the CRS written onto the returned
dataset.  The `interp` call itself is the labeled-array engine boundary
and does not affect those observables. -/

/-- Coordinate table plus CRS tag of a dataset. -/
structure GridDataset where
  coords : List (St × List Int)
  crs : Option St

/-- Whether a coordinate name is present, Python `name in ds.coords`. -/
def hasCoord (ds : GridDataset) (name : St) : Bool :=
  ds.coords.any (fun kv => kv.1 = name)

/-- `ds[name].values` for a present coordinate (first binding wins). -/
def coordVals (ds : GridDataset) (name : St) : List Int :=
  ((ds.coords.find? (fun kv => kv.1 = name)).map (fun kv => kv.2)).getD []

/-- Observables of a successful `interpolate_coords` call: the grids
passed to `interp`, the CRS written onto the result, and whether the
reference dataset was loaded. -/
structure InterpCoordsOk where
  x_grid : List Int
  y_grid : List Int
  crs : Option St
  reference_loaded : Bool
deriving DecidableEq

/-- `interpolate_coords` (`utils/xarray.py` lines 425-514).  When
`use_reference_grid` is set or either grid is missing, the reference
dataset is loaded and the four coordinate names are validated (a failure
raises `ValueError` whose message interpolates all four configured names,
lines 472-480); missing grids are taken from the reference and
`use_reference_grid` is forced to `True`, so the reference CRS is written
onto the result (lines 482-492, 509-512); otherwise the supplied grids are
used and the source CRS is retained. -/
def interpolate_coords (xr_time_series reference_coords : GridDataset)
    (x_grid y_grid : Option (List Int))
    (x_coord_column_name y_coord_column_name : St)
    (reference_coord_x_column_name reference_coord_y_column_name : St)
    (use_reference_grid : Bool) : Except (List St) InterpCoordsOk :=
  if use_reference_grid || x_grid.isNone || y_grid.isNone then
    if hasCoord reference_coords reference_coord_x_column_name
        && hasCoord reference_coords reference_coord_y_column_name
        && hasCoord xr_time_series x_coord_column_name
        && hasCoord xr_time_series y_coord_column_name then
      Except.ok
        (InterpCoordsOk.mk
          (x_grid.getD (coordVals reference_coords reference_coord_x_column_name))
          (y_grid.getD (coordVals reference_coords reference_coord_y_column_name))
          reference_coords.crs
          true)
    else
      Except.error [reference_coord_x_column_name, reference_coord_y_column_name,
                    x_coord_column_name, y_coord_column_name]
  else
    Except.ok
      (InterpCoordsOk.mk (x_grid.getD []) (y_grid.getD []) xr_time_series.crs false)

/-- `Except.isOk` as a boolean (avoiding a library dependency). -/
def exceptIsOk : Except ε α → Bool
  | Except.ok _ => true
  | Except.error _ => false

/-- Concrete source dataset for the C4 counterexample: both source
coordinate names present. -/
def c4Src : GridDataset :=
  GridDataset.mk [("sx".toList, [0]), ("sy".toList, [0])] (some "EPSG:4326".toList)

/-- Concrete reference dataset for the C4 counterexample: the reference x
name present, the reference y name missing. -/
def c4Ref : GridDataset :=
  GridDataset.mk [("rx".toList, [1])] (some "EPSG:27700".toList)

/-- Concrete source dataset for the C10 witness. -/
def c10Src : GridDataset :=
  GridDataset.mk [("sx".toList, [0]), ("sy".toList, [0])] (some "EPSG:4326".toList)

/-- Concrete reference dataset for the C10 witness, with a CRS distinct
from the source CRS. -/
def c10Ref : GridDataset :=
  GridDataset.mk [("rx".toList, [7, 8]), ("ry".toList, [9])] (some "EPSG:27700".toList)

/-! ## Per-file result map of `to_reprojection`
(`HADsResampler.to_reprojection`, `resample.py` lines 311-346;
`CPMResampler.to_reprojection`, lines 401-428)

Both variants share the same result-map bookkeeping; only the conversion
call and the output-name transform differ, so the latter is the parameter
`convertedOutputPath` (the helper `converted_output_path` is imported from
`utils/xarray` but not among the given sources).  The Python `dict` is
embedded as a lookup function. -/

/-- The `_result_paths` dict: source path to `None`/output path; `none`
lookups are absent keys. -/
abbrev ResultPathsMap := St → Option (Option St)

/-- Python `d[k] = v`. -/
def dictSet (d : ResultPathsMap) (k : St) (v : Option St) : ResultPathsMap :=
  fun q => if q = k then some v else d q

/-- What `to_reprojection` returns: the export path or the in-memory
dataset. -/
inductive ReprojectionReturn
  | path (p : St)
  | dataset
deriving DecidableEq

/-- `to_reprojection` for a successfully processed source file: record
`None` for the source path, then, when writing or returning a path,
compute the export path (the override or the derived converted output
path); record it iff `write_results`; return the path iff `return_path`,
else the dataset. -/
def to_reprojection (result_paths : ResultPathsMap) (source_path : St)
    (override_export_path : Option St) (convertedOutputPath : St → St)
    (write_results return_path : Bool) : ResultPathsMap × ReprojectionReturn :=
  let m1 := dictSet result_paths source_path none
  if write_results || return_path then
    let export_path := override_export_path.getD (convertedOutputPath source_path)
    let m2 := if write_results then dictSet m1 source_path (some export_path) else m1
    if return_path then (m2, ReprojectionReturn.path export_path) else (m2, ReprojectionReturn.dataset)
  else
    (m1, ReprojectionReturn.dataset)

/-! ## Filesystem directory state

`mkdir(parents=True, exist_ok=True)` over an abstract set of existing
directories, used by the intermediate-file path manager (C7) and the warp
wrapper (C8).  The state is the list of directories that exist, in
creation order. -/

/-- Create one directory if absent (`exist_ok=True`). -/
def addDir (fs : List St) (q : St) : List St :=
  if q ∈ fs then fs else fs ++ [q]

/-- The proper ancestors of a normalized relative path, outermost first:
for `a/b/c` the list `[a, a/b]`. -/
def properAncestors (p : St) : List St :=
  let parts := splitOnChar '/' p
  (List.range (parts.length - 1)).map (fun i => joinSlash (parts.take (i + 1)))

/-- `Path(p).mkdir(parents=True, exist_ok=True)`: create every missing
ancestor, then the directory itself. -/
def mkdirParents (fs : List St) (p : St) : List St :=
  addDir ((properAncestors p).foldl addDir fs) p

/-! ## `IntermediateCPMFilesManager` (`utils/xarray.py` lines 212-332)

The fields are the dataclass fields after `__post_init__` normalization
(`output_path` resolved, 360-day dates already converted).  The
`file_name_prefix` field is embedded as `file_name_start`.  The helpers
`date_range_to_str` and `time_str` live in `utils/core.py`, which is not
among the given sources: `date_range_to_str` is fixed by the class's own
doctest (`/3-test-1980-tasmax-19801201-19811130-...`), and `time_str` is a
wall-clock reading, passed to each accessor as the explicit argument
`t`. -/

/-- Zero-padded decimal rendering of `n` to width `w`. -/
def padNat (w n : Nat) : St :=
  let ds := Nat.toDigits 10 n
  List.replicate (w - ds.length) '0' ++ ds

/-- A date as `YYYYMMDD`. -/
def yyyymmdd (d : Ymd) : St :=
  padNat 4 d.y ++ padNat 2 d.m ++ padNat 2 d.d

/-- Modelled from the spec: `date_range_to_str` of `utils/core.py` is not
among the given sources; the `IntermediateCPMFilesManager` doctest fixes
its output to `YYYYMMDD-YYYYMMDD`. -/
def dateRangeToStr (s e : Ymd) : St :=
  yyyymmdd s ++ '-' :: yyyymmdd e

/-- `CPM_365_OR_366_INTERMEDIATE_NC` (`utils/xarray.py` line 140). -/
def CPM_365_OR_366_INTERMEDIATE_NC : St := "cpm-365-or-366.nc".toList

/-- `CPM_365_OR_366_SIMPLIFIED_NC` (`utils/xarray.py` line 141). -/
def CPM_365_OR_366_SIMPLIFIED_NC : St := "cpm-365-or-366-simplified.nc".toList

/-- `CPM_365_OR_366_27700_TIF` (`utils/xarray.py` line 142). -/
def CPM_365_OR_366_27700_TIF : St := "cpm-365-or-366-27700.tif".toList

/-- `CPM_365_OR_366_27700_FINAL` (`utils/xarray.py` line 143). -/
def CPM_365_OR_366_27700_FINAL : St := "cpm-365-or-366-27700-final.nc".toList

/-- The `IntermediateCPMFilesManager` dataclass after `__post_init__`
(the `file_name_prefix` field appears here as `file_name_start`). -/
structure IntermediateCPMFilesManager where
  variable_name : St
  output_path : St
  time_series_start : Ymd
  time_series_end : Ymd
  subfolder_path : St
  file_name_start : St
  subfolder_time_stamp : Bool

/-- `prefix_var_name_and_date` (`utils/xarray.py` lines 287-293). -/
def varNameAndDateStem (m : IntermediateCPMFilesManager) : St :=
  let core := m.variable_name ++ '-' :: dateRangeToStr m.time_series_start m.time_series_end ++ ['-']
  if m.file_name_start ≠ [] then m.file_name_start ++ '-' :: core else core

/-- `subfolder` (`utils/xarray.py` lines 295-300): appends the wall-clock
string `t` (the `time_str()` reading at access time) when
`subfolder_time_stamp` is set. -/
def subfolderOf (m : IntermediateCPMFilesManager) (t : St) : St :=
  if m.subfolder_time_stamp then pyName m.subfolder_path ++ '-' :: t else m.subfolder_path

/-- `intermediate_files_folder` (`utils/xarray.py` lines 302-308): the
path `output_path / subfolder`, created with
`mkdir(exist_ok=True, parents=True)`; returns the path and the new
directory state. -/
def intermediate_files_folder (m : IntermediateCPMFilesManager) (t : St)
    (fs : List St) : St × List St :=
  let p := m.output_path ++ '/' :: subfolderOf m t
  (p, mkdirParents fs p)

/-- `intermediate_nc_path` (`utils/xarray.py` lines 310-314). -/
def intermediate_nc_path (m : IntermediateCPMFilesManager) (t : St)
    (fs : List St) : St × List St :=
  let r := intermediate_files_folder m t fs
  (r.1 ++ '/' :: ('0' :: '-' :: (varNameAndDateStem m ++ CPM_365_OR_366_INTERMEDIATE_NC)), r.2)

/-- `simplified_nc_path` (`utils/xarray.py` lines 316-320). -/
def simplified_nc_path (m : IntermediateCPMFilesManager) (t : St)
    (fs : List St) : St × List St :=
  let r := intermediate_files_folder m t fs
  (r.1 ++ '/' :: ('1' :: '-' :: (varNameAndDateStem m ++ CPM_365_OR_366_SIMPLIFIED_NC)), r.2)

/-- `intermediate_warp_path` (`utils/xarray.py` lines 322-326). -/
def intermediate_warp_path (m : IntermediateCPMFilesManager) (t : St)
    (fs : List St) : St × List St :=
  let r := intermediate_files_folder m t fs
  (r.1 ++ '/' :: ('2' :: '-' :: (varNameAndDateStem m ++ CPM_365_OR_366_27700_TIF)), r.2)

/-- `final_nc_path` (`utils/xarray.py` lines 328-332). -/
def final_nc_path (m : IntermediateCPMFilesManager) (t : St)
    (fs : List St) : St × List St :=
  let r := intermediate_files_folder m t fs
  (r.1 ++ '/' :: ('3' :: '-' :: (varNameAndDateStem m ++ CPM_365_OR_366_27700_FINAL)), r.2)

/-- Concrete manager for the C7 counterexample, with
`subfolder_time_stamp` enabled. -/
def c7Manager : IntermediateCPMFilesManager :=
  IntermediateCPMFilesManager.mk "tasmax".toList "out".toList
    (Ymd.mk 1980 12 1) (Ymd.mk 1981 11 30) "sub".toList [] true

/-- Concrete manager for the C7 witness, with `subfolder_time_stamp`
disabled (the default). -/
def c7ManagerPlain : IntermediateCPMFilesManager :=
  IntermediateCPMFilesManager.mk "tasmax".toList "out".toList
    (Ymd.mk 1980 12 1) (Ymd.mk 1981 11 30) "sub".toList [] false

/-! ## `gdal_warp_wrapper` (`utils/xarray.py` lines 941-1014)

The GDAL `Warp` call is the external raster-warp boundary; the embedded
function records whether it is reached, with which `overwrite` flag, and
what is returned.  The directory state models directories only, so
`Path(output_path).is_dir()` is membership. -/

/-- Outcome of `gdal_warp_wrapper`: the `FileExistsError` raised before
any warp, or a completed warp with its `overwrite` flag and return value
(the output path when `return_path`, else the dataset handle). -/
inductive WarpOutcome
  | fileExists (p : St)
  | warped (overwrite : Bool) (returned : Option St)
deriving DecidableEq

/-- `gdal_warp_wrapper` (`utils/xarray.py` lines 941-1014): create the
output path's parent directories, fail with `FileExistsError` if the
output path is an existing directory, set `overwrite` when input equals
output, then warp. -/
def gdal_warp_wrapper (fs : List St) (input_path output_path : St)
    (return_path : Bool) : List St × WarpOutcome :=
  let fs1 := mkdirParents fs (parentPath output_path)
  if output_path ∈ fs1 then
    (fs1, WarpOutcome.fileExists output_path)
  else
    (fs1, WarpOutcome.warped (input_path = output_path)
      (if return_path then some output_path else none))

/-! ## `ResamplerManagerBase.set_input_paths` (`resample.py` lines 554-573)

For a single base input path: propagate to per-variable subpaths
(`base/var/sub_path`), then, only when
`_strict_fail_if_var_in_input_path` is set, raise
`VarirableInBaseImportPathError` at the first configured variable name
occurring as a substring of the base path string.  The embedding also
records every log message the call emits (the source emits none on this
path). -/

/-- Result of `set_input_paths`: either the raised error (carrying the
offending variable name) or the propagated input paths, plus all log
messages emitted. -/
structure SetInputPathsResult where
  outcome : Except St (List St)
  logs : List St

/-- `set_input_paths` for a single base input path
(`resample.py` lines 554-573); `vars` is the manager's `self.variables`. -/
def set_input_paths (base : St) (vars : List St) (sub_path : St)
    (strict : Bool) : SetInputPathsResult :=
  let input_paths := vars.map (fun v => base ++ '/' :: v ++ '/' :: sub_path)
  if strict then
    match vars.find? (fun v => hasSubstr v base) with
    | some v => SetInputPathsResult.mk (Except.error v) []
    | none => SetInputPathsResult.mk (Except.ok input_paths) []
  else
    SetInputPathsResult.mk (Except.ok input_paths) []

/-- Concrete base input path for the C9 counterexample: its string
contains the variable name `tasmax`. -/
def c9Base : St := "climate/tasmax/raw".toList

end ClimRecal

namespace ClimRecal

/-- A directory just created is in the state. -/
theorem mem_addDir_self (fs : List St) (q : St) : q ∈ addDir fs q := by
  unfold addDir
  split
  · assumption
  · simp

/-- `addDir` preserves existing directories. -/
theorem mem_addDir_of_mem {fs : List St} {x : St} (q : St) (h : x ∈ fs) :
    x ∈ addDir fs q := by
  unfold addDir
  split
  · exact h
  · simp [h]

/-- Creating an existing directory is a no-op (`exist_ok=True`). -/
theorem addDir_of_mem {fs : List St} {q : St} (h : q ∈ fs) : addDir fs q = fs := by
  unfold addDir
  simp [h]

/-- Folding `addDir` preserves existing directories. -/
theorem mem_foldl_addDir_of_mem {x : St} {fs : List St} (l : List St) (h : x ∈ fs) :
    x ∈ l.foldl addDir fs := by
  induction l generalizing fs with
  | nil => exact h
  | cons a t ih => exact ih (mem_addDir_of_mem a h)

/-- Folding `addDir` creates every listed directory. -/
theorem mem_foldl_addDir_of_mem_list {x : St} {l : List St} (fs : List St) (h : x ∈ l) :
    x ∈ l.foldl addDir fs := by
  induction l generalizing fs with
  | nil => cases h
  | cons a t ih =>
      rcases List.mem_cons.mp h with rfl | h'
      · exact mem_foldl_addDir_of_mem t (mem_addDir_self fs x)
      · exact ih _ h'

/-- Folding `addDir` over directories that all exist is a no-op. -/
theorem foldl_addDir_of_all_mem {l fs : List St} (h : ∀ x ∈ l, x ∈ fs) :
    l.foldl addDir fs = fs := by
  induction l with
  | nil => rfl
  | cons a t ih =>
      rw [List.foldl_cons, addDir_of_mem (h a (by simp))]
      exact ih (fun x hx => h x (by simp [hx]))

/-- `mkdir(parents=True)` creates the directory itself. -/
theorem mem_mkdirParents_self (fs : List St) (p : St) : p ∈ mkdirParents fs p :=
  mem_addDir_self _ p

/-- `mkdir(parents=True)` preserves existing directories. -/
theorem mem_mkdirParents_of_mem {fs : List St} {x : St} (p : St) (h : x ∈ fs) :
    x ∈ mkdirParents fs p :=
  mem_addDir_of_mem p (mem_foldl_addDir_of_mem _ h)

/-- `mkdir(parents=True)` creates every ancestor. -/
theorem ancestors_mem_mkdirParents {x p : St} (fs : List St)
    (h : x ∈ properAncestors p) : x ∈ mkdirParents fs p :=
  mem_addDir_of_mem p (mem_foldl_addDir_of_mem_list fs h)

/-- Repeating `mkdir(parents=True, exist_ok=True)` on the same path
changes nothing. -/
theorem mkdirParents_idem (fs : List St) (p : St) :
    mkdirParents (mkdirParents fs p) p = mkdirParents fs p := by
  have h1 : (properAncestors p).foldl addDir (mkdirParents fs p) = mkdirParents fs p :=
    foldl_addDir_of_all_mem (fun x hx => ancestors_mem_mkdirParents fs hx)
  show addDir ((properAncestors p).foldl addDir (mkdirParents fs p)) p = mkdirParents fs p
  rw [h1, addDir_of_mem (mem_mkdirParents_self fs p)]

/-- C5 counterexample: the claim as stated is false, because `(9, 31)` —
September 31st, which exists in no Gregorian year — is an element of the
leap-year drop set. -/
theorem month_day_drop_claim_false :
    ¬ monthDayDropClaim ∧
    (9, 31) ∈ MONTH_DAY_XARRAY_LEAP_YEAR_DROP ∧
    validMonthDay true (9, 31) = false := by
  refine ⟨fun h => ?_, by decide, by decide⟩
  have := h.2.2.2.1 (9, 31) (by decide)
  exact absurd this (by decide)

/-- C5 amended: the leap-year drop set has 6 elements, the non-leap set 5,
the two sets are distinct, every non-leap tuple is a valid Gregorian date,
and every leap tuple except exactly `(9, 31)` is a valid Gregorian date. -/
theorem month_day_drop_sets_amended :
    MONTH_DAY_XARRAY_LEAP_YEAR_DROP.toFinset.card = 6 ∧
    MONTH_DAY_XARRAY_NO_LEAP_YEAR_DROP.toFinset.card = 5 ∧
    MONTH_DAY_XARRAY_LEAP_YEAR_DROP.toFinset ≠ MONTH_DAY_XARRAY_NO_LEAP_YEAR_DROP.toFinset ∧
    MONTH_DAY_XARRAY_NO_LEAP_YEAR_DROP.filter (fun md => !validMonthDay false md) = [] ∧
    MONTH_DAY_XARRAY_LEAP_YEAR_DROP.filter (fun md => !validMonthDay true md) = [(9, 31)] := by
  decide

/-- `file_name_to_start_end_dates` restated over `dateTokens`; definitional. -/
theorem file_name_to_start_end_dates_eq (p : St) :
    file_name_to_start_end_dates p =
      (if (dateTokens p).length = 2 then
        match strptimeYmd ((dateTokens p).getD 0 []) with
        | none => Except.error "ValueError: start date does not match format".toList
        | some start_date =>
            match strptimeYmd ((dateTokens p).getD 1 []) with
            | none => Except.error "ValueError: end date does not match format".toList
            | some end_date => Except.ok (start_date, end_date)
      else Except.error "ValueError: Maximum of 2 date strs in YYYMMDD form allowed".toList) :=
  rfl

/-- C3: `file_name_to_start_end_dates` raises a `ValueError` exactly when
the stem of the final underscore-delimited segment of the file name does
not split on `'-'` into exactly two tokens each parseable as a `%Y%m%d`
date; when it does, the function returns the two parsed dates. -/
theorem file_name_dates_spec (p : St) :
    match dateTokens p with
    | [s, e] =>
        match strptimeYmd s, strptimeYmd e with
        | some d₁, some d₂ => file_name_to_start_end_dates p = Except.ok (d₁, d₂)
        | _, _ => ∃ msg, file_name_to_start_end_dates p = Except.error msg
    | _ => ∃ msg, file_name_to_start_end_dates p = Except.error msg := by
  split
  case _ s e heq =>
    split
    case _ d₁ d₂ h1 h2 =>
      rw [file_name_to_start_end_dates_eq, heq]
      simp [h1, h2]
    case _ hne =>
      rw [file_name_to_start_end_dates_eq, heq]
      rcases h1 : strptimeYmd s with _ | d₁
      · exact ⟨"ValueError: start date does not match format".toList, by simp [h1]⟩
      · rcases h2 : strptimeYmd e with _ | d₂
        · exact ⟨"ValueError: end date does not match format".toList, by simp [h1, h2]⟩
        · exact absurd (hne d₁ d₂ h1 h2) not_false
  case _ hshape =>
    have hne : (dateTokens p).length ≠ 2 := by
      intro hl
      rcases List.length_eq_two.mp hl with ⟨a, b, hab⟩
      exact hshape a b hab
    rw [file_name_to_start_end_dates_eq, if_neg hne]
    exact ⟨_, rfl⟩

/-- The doctest of `file_name_to_start_end_dates`, evaluated in the
embedding: `pr_rcp85_land-cpm_uk_2.2km_06_day_20761201-20771130.tif`
parses to 2076-12-01 and 2077-11-30. -/
theorem file_name_dates_doctest :
    file_name_to_start_end_dates
        "pr_rcp85_land-cpm_uk_2.2km_06_day_20761201-20771130.tif".toList
      = Except.ok (Ymd.mk 2076 12 1, Ymd.mk 2077 11 30) :=
  rfl

/-- C1: evaluation of the embedded `convert_xr_calendar` at the failing
input.  For an input carrying CRS `EPSG:4326` whose calendar-converted
intermediate lost its CRS (the external operation does not guarantee
propagation), the `interpolate_na=True` branch returns a dataset with no
CRS while the non-interpolating branch correctly restores the input CRS:
`interpolate_xr_ts_nans` guards on `original_xr_ts.rio.crs` but writes
`xr_ts.rio.crs`, contradicting its own `keep_crs` documentation. -/
theorem convert_xr_calendar_crs_bug :
    (convert_xr_calendar (α := Unit)
        (XrDataset.mk (some "EPSG:4326".toList) ())
        (XrDataset.mk none ()) true true id).crs = none ∧
    (convert_xr_calendar (α := Unit)
        (XrDataset.mk (some "EPSG:4326".toList) ())
        (XrDataset.mk none ()) false true id).crs = some "EPSG:4326".toList ∧
    (interpolate_xr_ts_nans (α := Unit)
        (XrDataset.mk none ())
        (XrDataset.mk (some "EPSG:4326".toList) ()) true id).crs
      ≠ some "EPSG:4326".toList := by
  refine ⟨rfl, rfl, by decide⟩

/-- C2 counterexample: for a manager with two propagated input paths each
holding three source files and no window restriction, `len(manager)` is 2
— the number of input paths — not the claimed total of 6 source files, and
`max_count` is likewise 2, not 6. -/
theorem manager_len_counts_paths_cex :
    managerLen c2Manager = 2 ∧
    windowSourceFileTotal c2Manager c2Listing = 6 ∧
    managerLen c2Manager ≠ windowSourceFileTotal c2Manager c2Listing ∧
    managerMaxCount c2Manager ≠ allSourceFileTotal c2Manager c2Listing := by
  refine ⟨rfl, rfl, by decide, by decide⟩

/-- C2 amended: `len(manager)` equals the number of enumerated input
paths inside the index window `[start_index, stop_index)` (not the total
of their files) and `max_count` equals the number of input paths ignoring
the window; a per-variable `ResamplerBase` counts its own files the same
way. -/
theorem manager_len_window_paths (m : ResamplerManagerBase) (r : ResamplerBase) :
    managerLen m
      = min (m.stop_index.getD m.input_paths.length) m.input_paths.length - m.start_index ∧
    managerMaxCount m = m.input_paths.length ∧
    resamplerLen r
      = min (r.stop_index.getD r.input_files.length) r.input_files.length - r.start_index ∧
    resamplerMaxCount r = r.input_files.length := by
  refine ⟨?_, rfl, ?_, rfl⟩
  · rcases m with ⟨l, st, _ | s⟩
    · simp [managerLen, pySlice]
    · simp [managerLen, pySlice]
  · rcases r with ⟨l, st, _ | s⟩
    · simp [resamplerLen, pySlice]
    · simp [resamplerLen, pySlice]

/-- C4 counterexample: with only the reference y-coordinate name missing,
`interpolate_coords` raises a `ValueError` whose message lists all four
configured names — including the three that are present — not exactly the
missing one. -/
theorem interpolate_coords_error_names_cex :
    interpolate_coords c4Src c4Ref none none
        "sx".toList "sy".toList "rx".toList "ry".toList true
      = Except.error ["rx".toList, "ry".toList, "sx".toList, "sy".toList] ∧
    hasCoord c4Ref "rx".toList = true ∧
    hasCoord c4Ref "ry".toList = false ∧
    hasCoord c4Src "sx".toList = true ∧
    hasCoord c4Src "sy".toList = true ∧
    (["rx".toList, "ry".toList, "sx".toList, "sy".toList] : List St) ≠ ["ry".toList] := by
  refine ⟨rfl, rfl, rfl, rfl, rfl, by decide⟩

/-- C4 amended: whenever `interpolate_coords` reaches coordinate-name
validation (`use_reference_grid` set or a grid missing), it fails with a
`ValueError` exactly when at least one of the four required names is
absent, and the error message then lists all four configured names (in
the fixed order reference-x, reference-y, source-x, source-y), not only
the missing ones; when all four are present no such error is raised. -/
theorem interpolate_coords_validation (src ref : GridDataset)
    (xg yg : Option (List Int)) (xn yn rxn ryn : St) (urg : Bool)
    (hreach : urg = true ∨ xg = none ∨ yg = none) :
    (exceptIsOk (interpolate_coords src ref xg yg xn yn rxn ryn urg) = false ↔
      (hasCoord ref rxn && hasCoord ref ryn && hasCoord src xn && hasCoord src yn) = false) ∧
    (∀ e, interpolate_coords src ref xg yg xn yn rxn ryn urg = Except.error e →
      e = [rxn, ryn, xn, yn]) := by
  have hcond : (urg || xg.isNone || yg.isNone) = true := by
    rcases hreach with h | h | h <;> simp [h]
  by_cases hnames :
      (hasCoord ref rxn && hasCoord ref ryn && hasCoord src xn && hasCoord src yn) = true
  · constructor
    · simp [interpolate_coords, hcond, hnames, exceptIsOk]
    · intro e he
      rw [interpolate_coords] at he
      simp [hcond, hnames] at he
  · have hnames' :
        (hasCoord ref rxn && hasCoord ref ryn && hasCoord src xn && hasCoord src yn) = false :=
      by simpa using hnames
    constructor
    · simp [interpolate_coords, hcond, hnames', exceptIsOk]
    · intro e he
      rw [interpolate_coords] at he
      simp [hcond, hnames'] at he
      exact he.symm

/-- C4 witness: at the concrete datasets with the reference y name
missing, the amended theorem yields the failure. -/
theorem interpolate_coords_validation_witness :
    exceptIsOk (interpolate_coords c4Src c4Ref none none
        "sx".toList "sy".toList "rx".toList "ry".toList true) = false :=
  (interpolate_coords_validation c4Src c4Ref none none
      "sx".toList "sy".toList "rx".toList "ry".toList true (Or.inl rfl)).1.mpr (by decide)

/-- C10: when `use_reference_grid` is `False` but at least one grid is
missing and all four coordinate names are present, `interpolate_coords`
still loads the reference dataset, takes each missing grid axis from it
(keeping any supplied axis), and writes the reference dataset's CRS onto
the returned dataset instead of retaining the source dataset's CRS. -/
theorem interpolate_coords_reference_fallback (src ref : GridDataset)
    (xg yg : Option (List Int)) (xn yn rxn ryn : St)
    (hmiss : xg = none ∨ yg = none)
    (hnames : (hasCoord ref rxn && hasCoord ref ryn
        && hasCoord src xn && hasCoord src yn) = true) :
    interpolate_coords src ref xg yg xn yn rxn ryn false
      = Except.ok (InterpCoordsOk.mk
          (xg.getD (coordVals ref rxn)) (yg.getD (coordVals ref ryn)) ref.crs true) := by
  rcases hmiss with h | h
  · subst h
    simp [interpolate_coords, hnames]
  · subst h
    cases xg with
    | none => simp [interpolate_coords, hnames]
    | some g => simp [interpolate_coords, hnames]

/-- C10 witness: with the x grid missing and a supplied y grid, the result
takes the x axis from the reference, keeps the supplied y axis, and
carries the reference CRS (distinct from the source CRS). -/
theorem interpolate_coords_reference_fallback_witness :
    interpolate_coords c10Src c10Ref none (some [5])
        "sx".toList "sy".toList "rx".toList "ry".toList false
      = Except.ok (InterpCoordsOk.mk [7, 8] [5] (some "EPSG:27700".toList) true) :=
  (interpolate_coords_reference_fallback c10Src c10Ref none (some [5])
      "sx".toList "sy".toList "rx".toList "ry".toList (Or.inl rfl) (by decide)).trans
    rfl

/-- C6: after `to_reprojection` on a successfully processed source file,
the per-file result map holds an entry for that source whose value is the
written export path iff `write_results` was true and `None` otherwise,
and no other key of the map is changed (so the map only ever holds `None`
or output paths). -/
theorem to_reprojection_result_map (d : ResultPathsMap) (src : St)
    (ov : Option St) (f : St → St) (w r : Bool) :
    (to_reprojection d src ov f w r).1 src
      = some (if w then some (ov.getD (f src)) else none) ∧
    (∀ k, k ≠ src → (to_reprojection d src ov f w r).1 k = d k) := by
  cases w <;> cases r <;>
    refine ⟨by simp [to_reprojection, dictSet], fun k hk => by simp [to_reprojection, dictSet, hk]⟩

/-- C6 witness: at a concrete empty map with writing enabled, a key other
than the source path is untouched. -/
theorem to_reprojection_result_map_witness :
    (to_reprojection (fun _ => none) "a.nc".toList none
        (fun p => p ++ "-out".toList) true true).1 "b.nc".toList = none :=
  (to_reprojection_result_map (fun _ => none) "a.nc".toList none
      (fun p => p ++ "-out".toList) true true).2 "b.nc".toList (by decide)

/-- C7 counterexample: with `subfolder_time_stamp` enabled, two accesses
of the same stage-path accessor on the same configured inputs but at
different wall-clock readings return different paths, and the second
access creates a new directory. -/
theorem intermediate_paths_time_stamp_cex :
    (intermediate_nc_path c7Manager "20240101-000000".toList []).1
      ≠ (intermediate_nc_path c7Manager "20240101-000001".toList []).1 ∧
    (intermediate_nc_path c7Manager "20240101-000001".toList
        ((intermediate_nc_path c7Manager "20240101-000000".toList []).2)).2
      ≠ (intermediate_nc_path c7Manager "20240101-000000".toList []).2 := by
  refine ⟨by decide, by decide⟩

/-- C7 amended: when `subfolder_time_stamp` is disabled (the default),
evaluating any of the five stage-path accessors twice with the same
configured inputs returns the identical path both times — independently
of the wall-clock readings — and the second access creates no new
directory; with `subfolder_time_stamp` enabled the subfolder name embeds
the wall-clock string, so accesses at different readings differ. -/
theorem intermediate_paths_idempotent (m : IntermediateCPMFilesManager)
    (t₁ t₂ : St) (fs : List St) (hts : m.subfolder_time_stamp = false) :
    ((intermediate_files_folder m t₂ ((intermediate_files_folder m t₁ fs).2)).1
        = (intermediate_files_folder m t₁ fs).1 ∧
      (intermediate_files_folder m t₂ ((intermediate_files_folder m t₁ fs).2)).2
        = (intermediate_files_folder m t₁ fs).2) ∧
    ((intermediate_nc_path m t₂ ((intermediate_nc_path m t₁ fs).2)).1
        = (intermediate_nc_path m t₁ fs).1 ∧
      (intermediate_nc_path m t₂ ((intermediate_nc_path m t₁ fs).2)).2
        = (intermediate_nc_path m t₁ fs).2) ∧
    ((simplified_nc_path m t₂ ((simplified_nc_path m t₁ fs).2)).1
        = (simplified_nc_path m t₁ fs).1 ∧
      (simplified_nc_path m t₂ ((simplified_nc_path m t₁ fs).2)).2
        = (simplified_nc_path m t₁ fs).2) ∧
    ((intermediate_warp_path m t₂ ((intermediate_warp_path m t₁ fs).2)).1
        = (intermediate_warp_path m t₁ fs).1 ∧
      (intermediate_warp_path m t₂ ((intermediate_warp_path m t₁ fs).2)).2
        = (intermediate_warp_path m t₁ fs).2) ∧
    ((final_nc_path m t₂ ((final_nc_path m t₁ fs).2)).1
        = (final_nc_path m t₁ fs).1 ∧
      (final_nc_path m t₂ ((final_nc_path m t₁ fs).2)).2
        = (final_nc_path m t₁ fs).2) := by
  have hsub : ∀ t, subfolderOf m t = m.subfolder_path := fun t => by
    simp [subfolderOf, hts]
  have hf1 : ∀ t fs0, (intermediate_files_folder m t fs0).1
      = m.output_path ++ '/' :: m.subfolder_path := fun t fs0 => by
    simp [intermediate_files_folder, hsub]
  have hf2 : ∀ t fs0, (intermediate_files_folder m t fs0).2
      = mkdirParents fs0 (m.output_path ++ '/' :: m.subfolder_path) := fun t fs0 => by
    simp [intermediate_files_folder, hsub]
  refine ⟨⟨?_, ?_⟩, ⟨?_, ?_⟩, ⟨?_, ?_⟩, ⟨?_, ?_⟩, ⟨?_, ?_⟩⟩ <;>
    simp [intermediate_nc_path, simplified_nc_path, intermediate_warp_path,
      final_nc_path, hf1, hf2, mkdirParents_idem]

/-- C7 witness: with the timestamp disabled, a repeated
`intermediate_nc_path` access at a different clock reading returns the
same path. -/
theorem intermediate_paths_idempotent_witness :
    (intermediate_nc_path c7ManagerPlain "t2".toList
        ((intermediate_nc_path c7ManagerPlain "t1".toList []).2)).1
      = (intermediate_nc_path c7ManagerPlain "t1".toList []).1 :=
  ((intermediate_paths_idempotent c7ManagerPlain "t1".toList "t2".toList [] rfl).2.1).1

/-- C8: `gdal_warp_wrapper` creates the output path's parent directory
with all its ancestors, and when the output path is an existing directory
it fails with `FileExistsError` before any warp is attempted. -/
theorem gdal_warp_wrapper_dirs (fs : List St) (inp outp : St) (rp : Bool) :
    parentPath outp ∈ (gdal_warp_wrapper fs inp outp rp).1 ∧
    (∀ q ∈ properAncestors (parentPath outp), q ∈ (gdal_warp_wrapper fs inp outp rp).1) ∧
    (outp ∈ fs → (gdal_warp_wrapper fs inp outp rp).2 = WarpOutcome.fileExists outp) := by
  have hfst : (gdal_warp_wrapper fs inp outp rp).1 = mkdirParents fs (parentPath outp) := by
    by_cases h : outp ∈ mkdirParents fs (parentPath outp) <;> simp [gdal_warp_wrapper, h]
  refine ⟨?_, ?_, ?_⟩
  · rw [hfst]
    exact mem_mkdirParents_self fs (parentPath outp)
  · intro q hq
    rw [hfst]
    exact ancestors_mem_mkdirParents fs hq
  · intro hmem
    simp [gdal_warp_wrapper, mem_mkdirParents_of_mem (parentPath outp) hmem]

/-- C8 witness: warping onto a path that already exists as a directory
raises `FileExistsError`. -/
theorem gdal_warp_wrapper_dirs_witness :
    (gdal_warp_wrapper ["d".toList] "in.nc".toList "d".toList true).2
      = WarpOutcome.fileExists "d".toList :=
  (gdal_warp_wrapper_dirs ["d".toList] "in.nc".toList "d".toList true).2.2 (by decide)

/-- C9 counterexample: with strict validation disabled and the base input
path containing a configured variable name, `set_input_paths` neither
raises nor logs — the check is skipped entirely, so nothing records the
condition the claim says is logged. -/
theorem set_input_paths_non_strict_no_log_cex :
    hasSubstr "tasmax".toList c9Base = true ∧
    (set_input_paths c9Base ["tasmax".toList] "day".toList false).logs = [] ∧
    (set_input_paths c9Base ["tasmax".toList] "day".toList false).outcome
      = Except.ok ["climate/tasmax/raw/tasmax/day".toList] := by
  refine ⟨rfl, rfl, rfl⟩

/-- C9 amended: with strict validation enabled (the default) a single
base input path is rejected — `VarirableInBaseImportPathError` carrying
the offending variable — exactly when some configured variable name
occurs as a substring of the base path string; with strict validation
disabled the check is skipped entirely (nothing is logged) and
construction proceeds with the propagated per-variable paths. -/
theorem set_input_paths_strictness (base sub : St) (vars : List St) :
    (exceptIsOk (set_input_paths base vars sub true).outcome = true ↔
      ∀ v ∈ vars, hasSubstr v base = false) ∧
    (∀ v, (set_input_paths base vars sub true).outcome = Except.error v →
      v ∈ vars ∧ hasSubstr v base = true) ∧
    (set_input_paths base vars sub false).outcome
      = Except.ok (vars.map (fun v => base ++ '/' :: v ++ '/' :: sub)) ∧
    (set_input_paths base vars sub false).logs = [] ∧
    (set_input_paths base vars sub true).logs = [] := by
  have hdef : set_input_paths base vars sub true =
      (match vars.find? (fun v => hasSubstr v base) with
       | some v => SetInputPathsResult.mk (Except.error v) []
       | none => SetInputPathsResult.mk
           (Except.ok (vars.map (fun v => base ++ '/' :: v ++ '/' :: sub))) []) := rfl
  cases h : vars.find? (fun v => hasSubstr v base) with
  | some v =>
      have hv' := List.find?_some h
      have hv : hasSubstr v base = true := hv'
      have hmem : v ∈ vars := List.mem_of_find?_eq_some h
      rw [hdef, h]
      refine ⟨?_, ?_, rfl, rfl, rfl⟩
      · constructor
        · intro hok
          exact absurd hok (by simp [exceptIsOk])
        · intro hall
          exact absurd (hall v hmem) (by simp [hv])
      · intro u hu
        have : Except.error (ε := St) (α := List St) v = Except.error u := hu
        cases this
        exact ⟨hmem, hv⟩
  | none =>
      have hall := List.find?_eq_none.mp h
      rw [hdef, h]
      refine ⟨?_, ?_, rfl, rfl, rfl⟩
      · constructor
        · intro _ v hv
          simpa using hall v hv
        · intro _
          rfl
      · intro u hu
        cases hu

/-- C9 witness: from a strict rejection at the concrete base path, the
offending variable is a configured one occurring in the base path. -/
theorem set_input_paths_strictness_witness :
    "tasmax".toList ∈ [("tasmax".toList : St)] ∧
      hasSubstr "tasmax".toList c9Base = true :=
  (set_input_paths_strictness c9Base "day".toList ["tasmax".toList]).2.1
    "tasmax".toList rfl

end ClimRecal
